import Mathlib

/-!
Verification development for the DigiMesh frame codec
(`xbee/digimesh.py`): the command/response schema registry, the
node-discovery post-processor `_parse_FN_at_response`, and the
schema-driven encoder/decoder described by the design document.

Byte sequences are modelled as `List Nat` (each element one byte).
Python slicing `P[a:b]` (for nonnegative `a ≤ b`) is `listSlice`.
-/

namespace DigiMesh

/-- Python slice `P[a:b]` for nonnegative indices: take `b`, then drop `a`.
Out-of-range bounds clip, exactly as in Python. -/
def listSlice (P : List Nat) (a b : Nat) : List Nat :=
  (P.take b).drop a

/-- `bytes.lower()` on a single byte: ASCII uppercase letters are mapped to
lowercase, everything else is unchanged. -/
def lowerByte (b : Nat) : Nat :=
  if 65 ≤ b && b ≤ 90 then b + 32 else b

/-- The decoded enclosing record handed to `_parse_FN_at_response`:
its `id` (the response name string), `command`, `status` and `parameter`
fields. -/
structure PacketInfo where
  id : String
  command : List Nat
  status : List Nat
  parameter : List Nat
deriving DecidableEq, Repr

/-- The guard of `_parse_FN_at_response` (digimesh.py line 146), exactly as
written in the source:
`packet_info['id'] in ('at_response', 'at_remote_response')
 and packet_info['command'].lower() == b'fn'
 and packet_info['status'] == b'\x00'`.
Note the source compares the command against `b'fn'` (0x66 0x6E) and the
second tuple element is the string `'at_remote_response'`. -/
def trigger (r : PacketInfo) : Bool :=
  (r.id == "at_response" || r.id == "at_remote_response") &&
  (r.command.map lowerByte == [0x66, 0x6E]) &&
  (r.status == [0x00])

/-- The structured node-discovery record built by `_parse_FN_at_response`.
`device_type_id` and `rssi` are `none` when the corresponding dictionary
key is absent. -/
structure NDRecord where
  source_addr : List Nat
  source_addr_long : List Nat
  node_identifier : List Nat
  parent_address : List Nat
  device_type : List Nat
  status : List Nat
  profile_id : List Nat
  manufacturer : List Nat
  device_type_id : Option (List Nat)
  rssi : Option (List Nat)
deriving DecidableEq, Repr

/-- Possible outcomes of a call to `_parse_FN_at_response`:
the function may loop forever in the terminator scan (`diverges`),
raise `ValueError` with the two numbers interpolated into the message
(`error expected read`), or return (`ret none` is Python's implicit
`None`, `ret (some r)` the result dictionary). -/
inductive FNOutcome where
  | diverges
  | error (expected read : Nat)
  | ret (r : Option NDRecord)
deriving DecidableEq, Repr

/-- The terminator-scan loop of `_parse_FN_at_response`
(digimesh.py lines 152-154), translated literally with explicit fuel:
`while packet_info['parameter'][i:i+1] != b'\x00': i += 1`.
When the fuel runs out the loop has not exited; `some i` is the value of
`null_terminator_index` after a normal exit. -/
def scanFuel (P : List Nat) : Nat → Nat → Option Nat
  | 0, _ => none
  | fuel + 1, i =>
    if listSlice P i (i + 1) == [0] then some i else scanFuel P fuel (i + 1)

/-- The value the terminator scan converges to when it terminates: the
first index `t ≥ 10` with `P[t] = 0`, or `none` when no such index exists
(in which case the source loop runs forever, see `scanFuel`). -/
def findTermIdx (P : List Nat) : Option Nat :=
  ((P.drop 10).findIdx? (fun b => b == 0)).map (· + 10)

/-- `_parse_FN_at_response` (digimesh.py lines 141-177). The guard is
`trigger`; on success the eight base slices are taken around the
terminator index `t`; the trailing layout is chosen by
`len(P) - t - 9` (a Python `int`, hence computed in `ℤ`); the
final length check raises `ValueError` with
`expected = len(P)` and `read = null_terminator_index + 9`
(after the `+= 4` / `+= 5` adjustment). -/
def parse_FN (r : PacketInfo) : FNOutcome :=
  if trigger r then
    match findTermIdx r.parameter with
    | none => FNOutcome.diverges
    | some t =>
      let P := r.parameter
      let base : NDRecord :=
        { source_addr := listSlice P 0 2
          source_addr_long := listSlice P 2 10
          node_identifier := listSlice P 10 t
          parent_address := listSlice P (t + 1) (t + 3)
          device_type := listSlice P (t + 3) (t + 4)
          status := listSlice P (t + 4) (t + 5)
          profile_id := listSlice P (t + 5) (t + 7)
          manufacturer := listSlice P (t + 7) (t + 9)
          device_type_id := none
          rssi := none }
      if (P.length : Int) - t - 9 = 4 then
        let res := { base with device_type_id := some (listSlice P (t + 9) (t + 13)) }
        if t + 4 + 9 ≠ P.length then FNOutcome.error P.length (t + 4 + 9)
        else FNOutcome.ret (some res)
      else if (P.length : Int) - t - 9 = 5 then
        let res := { base with
          device_type_id := some (listSlice P (t + 9) (t + 13))
          rssi := some (listSlice P (t + 13) (t + 14)) }
        if t + 5 + 9 ≠ P.length then FNOutcome.error P.length (t + 5 + 9)
        else FNOutcome.ret (some res)
      else
        if t + 9 ≠ P.length then FNOutcome.error P.length (t + 9)
        else FNOutcome.ret (some base)
  else FNOutcome.ret none

/-- A field's length specification: a fixed byte count (`'len': n`),
consume-the-remainder (`'len': None`), or scan to a null terminator
(`'len': 'null_terminated'`). -/
inductive LenSpec where
  | fixed (n : Nat)
  | remainder
  | nullTerm
deriving DecidableEq, Repr

/-- One field descriptor of a schema: name, length rule, optional
default value (a byte sequence). -/
structure FieldSpec where
  name : String
  len : LenSpec
  default : Option (List Nat)
deriving DecidableEq, Repr

/-- `DigiMesh.api_commands` (digimesh.py lines 37-64): the outbound
command schemas, in source order. -/
def api_commands : List (String × List FieldSpec) :=
  [("at",
    [⟨"id", .fixed 1, some [0x08]⟩,
     ⟨"frame_id", .fixed 1, some [0x00]⟩,
     ⟨"command", .fixed 2, none⟩,
     ⟨"parameter", .remainder, none⟩]),
   ("queued_at",
    [⟨"id", .fixed 1, some [0x09]⟩,
     ⟨"frame_id", .fixed 1, some [0x00]⟩,
     ⟨"command", .fixed 2, none⟩,
     ⟨"parameter", .remainder, none⟩]),
   ("remote_at",
    [⟨"id", .fixed 1, some [0x17]⟩,
     ⟨"frame_id", .fixed 1, some [0x00]⟩,
     ⟨"dest_addr_long", .fixed 8, none⟩,
     ⟨"reserved", .fixed 2, some [0xFF, 0xFE]⟩,
     ⟨"options", .fixed 1, some [0x02]⟩,
     ⟨"command", .fixed 2, none⟩,
     ⟨"parameter", .remainder, none⟩]),
   ("tx",
    [⟨"id", .fixed 1, some [0x10]⟩,
     ⟨"frame_id", .fixed 1, some [0x00]⟩,
     ⟨"dest_addr", .fixed 8, none⟩,
     ⟨"reserved", .fixed 2, some [0xFF, 0xFE]⟩,
     ⟨"broadcast_radius", .fixed 1, some [0x00]⟩,
     ⟨"options", .fixed 1, some [0x00]⟩,
     ⟨"data", .remainder, none⟩])]

/-- One inbound response schema: the response name, its ordered field
list, and the names of the fields carrying a post-parse hook (every hook
in the source is the `_parse_FN_at_response` lambda). -/
structure ResponseEntry where
  name : String
  fields : List FieldSpec
  parsing : List String
deriving DecidableEq, Repr

/-- `DigiMesh.api_responses` (digimesh.py lines 80-140), keyed by the
one-byte type identifier. Only the `b"\x88"` entry carries a
`'parsing'` hook. In the source the dict literal for key `b"\x97"`
is closed at line 137, BEFORE the `'parsing': [...]` pair at lines
138-139; that pair therefore lands as a stray top-level key of
`api_responses` itself (see `api_responses_stray_parsing`), so the
`remote_at_response` entry has no hook. -/
def api_responses : List (List Nat × ResponseEntry) :=
  [([0x88],
    { name := "at_response"
      fields :=
        [⟨"frame_id", .fixed 1, none⟩,
         ⟨"command", .fixed 2, none⟩,
         ⟨"status", .fixed 1, none⟩,
         ⟨"parameter", .remainder, none⟩]
      parsing := ["parameter"] }),
   ([0x8A],
    { name := "status"
      fields := [⟨"status", .fixed 1, none⟩]
      parsing := [] }),
   ([0x8B],
    { name := "tx_status"
      fields :=
        [⟨"frame_id", .fixed 1, none⟩,
         ⟨"reserved", .fixed 2, some [0xFF, 0xFE]⟩,
         ⟨"retries", .fixed 1, none⟩,
         ⟨"deliver_status", .fixed 1, none⟩,
         ⟨"discover_status", .fixed 1, none⟩]
      parsing := [] }),
   ([0x90],
    { name := "rx"
      fields :=
        [⟨"frame_id", .fixed 1, none⟩,
         ⟨"source_addr", .fixed 7, none⟩,
         ⟨"reserved", .fixed 2, none⟩,
         ⟨"options", .fixed 1, none⟩,
         ⟨"data", .remainder, none⟩]
      parsing := [] }),
   ([0x95],
    { name := "node_id"
      fields :=
        [⟨"source_addr_long", .fixed 8, none⟩,
         ⟨"network_addr", .fixed 2, none⟩,
         ⟨"options", .fixed 1, none⟩,
         ⟨"source_addr", .fixed 2, none⟩,
         ⟨"network_addr_long", .fixed 8, none⟩,
         ⟨"node_id", .nullTerm, none⟩,
         ⟨"parent", .fixed 2, none⟩,
         ⟨"unknown", .remainder, none⟩]
      parsing := [] }),
   ([0x97],
    { name := "remote_at_response"
      fields :=
        [⟨"frame_id", .fixed 1, none⟩,
         ⟨"source_addr", .fixed 8, none⟩,
         ⟨"reserved", .fixed 2, none⟩,
         ⟨"command", .fixed 2, none⟩,
         ⟨"status", .fixed 1, none⟩,
         ⟨"parameter", .remainder, none⟩]
      parsing := [] })]

/-- The stray `'parsing'` key-value pair of `api_responses` (digimesh.py
lines 138-139): because the `b"\x97"` value dict is closed at line 137,
this pair belongs to the outer `api_responses` dict under the string key
`'parsing'`, not to the `remote_at_response` schema. -/
def api_responses_stray_parsing : List String := ["parameter"]

/-- Look up a command schema by name. -/
def getCmd (n : String) : List FieldSpec :=
  ((api_commands.find? (fun p => p.1 == n)).map (fun p => p.2)).getD []

/-- Look up a response entry by its type-identifier byte. -/
def getResp (b : List Nat) : Option ResponseEntry :=
  (api_responses.find? (fun p => p.1 == b)).map (fun p => p.2)

/-- Override lookup: first pair in the override mapping whose key is the
field name. -/
def lookupOv (ovs : List (String × List Nat)) (n : String) : Option (List Nat) :=
  (ovs.find? (fun p => p.1 == n)).map (fun p => p.2)

/-- Modelled from the spec: per-field value resolution of the frame
encoder (`XBeeBase._build_command` lives in `xbee/base.py`, which is not
part of this repository's sources). Per §4.2: an override value is used
when supplied (its length must equal a declared fixed length; a
variable-length field accepts any length); otherwise the default;
otherwise the encode fails. -/
def resolve (f : FieldSpec) (ovs : List (String × List Nat)) : Option (List Nat) :=
  match lookupOv ovs f.name with
  | some v =>
    match f.len with
    | .fixed n => if v.length = n then some v else none
    | _ => some v
  | none => f.default

/-- Modelled from the spec: the frame encoder (§4.2,
`XBeeBase._build_command`, not in this repository's sources): resolve
each field of the schema in order and concatenate the resolved values;
`none` is an encode error. -/
def encode (schema : List FieldSpec) (ovs : List (String × List Nat)) : Option (List Nat) :=
  match schema with
  | [] => some []
  | f :: rest =>
    match resolve f ovs with
    | none => none
    | some v =>
      match encode rest ovs with
      | none => none
      | some r => some (v ++ r)

/-- Modelled from the spec: the field walk of the frame decoder (§4.3,
`XBeeBase._split_response`, not in this repository's sources): fixed
fields consume exactly `n` bytes (truncation is an error), a
null-terminated field consumes up to and including the first zero byte
(the terminator belongs to no field), a remainder field (legal only as
the final field) consumes everything left; leftover bytes after the last
field are an error. -/
def decodeFields (schema : List FieldSpec) (bytes : List Nat) :
    Option (List (String × List Nat)) :=
  match schema with
  | [] => if bytes.isEmpty then some [] else none
  | f :: rest =>
    match f.len with
    | .fixed n =>
      if n ≤ bytes.length then
        (decodeFields rest (bytes.drop n)).map (fun l => (f.name, bytes.take n) :: l)
      else none
    | .remainder =>
      if rest.isEmpty then some [(f.name, bytes)] else none
    | .nullTerm =>
      match bytes.findIdx? (fun b => b == 0) with
      | none => none
      | some k =>
        (decodeFields rest (bytes.drop (k + 1))).map (fun l => (f.name, bytes.take k) :: l)

/-- Modelled from the spec: the frame decoder entry point (§4.3, not in
this repository's sources): read the leading type byte, look up the
response schema, walk the fields; hook application (§4.4) is dispatched
from the entry's `parsing` list and is not part of the raw field walk. -/
def decode (raw : List Nat) : Option (String × List (String × List Nat)) :=
  match raw with
  | [] => none
  | b :: rest =>
    match getResp [b] with
    | none => none
    | some entry => (decodeFields entry.fields rest).map (fun l => (entry.name, l))

/-- Modelled from the spec: re-splitting an encoded byte sequence by the
schema's declared field lengths, in order (§8, round-trip property):
fixed fields take their declared byte count, the final remainder field
takes the rest. -/
def splitFields (schema : List FieldSpec) (bytes : List Nat) :
    Option (List (List Nat)) :=
  match schema with
  | [] => if bytes.isEmpty then some [] else none
  | f :: rest =>
    match f.len with
    | .fixed n =>
      if n ≤ bytes.length then
        (splitFields rest (bytes.drop n)).map (fun l => bytes.take n :: l)
      else none
    | .remainder =>
      if rest.isEmpty then some [bytes] else none
    | .nullTerm => none

/-- `_parse_FN_at_response` with the input record threaded through every
dictionary read, mirroring the source statement by statement: each access
to `packet_info` yields the value and the (unchanged) record, everything
written goes into the fresh local `result`. The second component is the
record state after the call. -/
def parse_FN_st (r : PacketInfo) : FNOutcome × PacketInfo :=
  let (idv, s1) := (r.id, r)
  let (cmdv, s2) := (s1.command, s1)
  let (stv, s3) := (s2.status, s2)
  if (idv == "at_response" || idv == "at_remote_response") &&
      (cmdv.map lowerByte == [0x66, 0x6E]) && (stv == [0x00]) then
    let (P, s4) := (s3.parameter, s3)
    match findTermIdx P with
    | none => (FNOutcome.diverges, s4)
    | some t =>
      let base : NDRecord :=
        { source_addr := listSlice P 0 2
          source_addr_long := listSlice P 2 10
          node_identifier := listSlice P 10 t
          parent_address := listSlice P (t + 1) (t + 3)
          device_type := listSlice P (t + 3) (t + 4)
          status := listSlice P (t + 4) (t + 5)
          profile_id := listSlice P (t + 5) (t + 7)
          manufacturer := listSlice P (t + 7) (t + 9)
          device_type_id := none
          rssi := none }
      if (P.length : Int) - t - 9 = 4 then
        let res := { base with device_type_id := some (listSlice P (t + 9) (t + 13)) }
        if t + 4 + 9 ≠ P.length then (FNOutcome.error P.length (t + 4 + 9), s4)
        else (FNOutcome.ret (some res), s4)
      else if (P.length : Int) - t - 9 = 5 then
        let res := { base with
          device_type_id := some (listSlice P (t + 9) (t + 13))
          rssi := some (listSlice P (t + 13) (t + 14)) }
        if t + 5 + 9 ≠ P.length then (FNOutcome.error P.length (t + 5 + 9), s4)
        else (FNOutcome.ret (some res), s4)
      else
        if t + 9 ≠ P.length then (FNOutcome.error P.length (t + 9), s4)
        else (FNOutcome.ret (some base), s4)
  else (FNOutcome.ret none, s3)

/-- Follows the spec's words (§4.4 trigger / claim C1), for comparison
with the source's `trigger`: the enclosing record is an AT-style response
(direct `at_response` or remote `remote_at_response` as registered in
`api_responses`), its command equals "ND" case-insensitively, and its
status is the zero byte. -/
def specTriggerCond (r : PacketInfo) : Bool :=
  (r.id == "at_response" || r.id == "remote_at_response") &&
  (r.command.map lowerByte == [0x6E, 0x64]) &&
  (r.status == [0x00])

/-- A parameter payload with the terminator at index 10 and zero bytes
remaining after the eight fixed trailing bytes (`remaining = 0`). -/
def pRem0 : List Nat := [1, 1, 1, 1, 1, 1, 1, 1, 1, 1, 0, 1, 1, 1, 1, 1, 1, 1, 1]

/-- A parameter payload with the terminator at index 10 and four bytes
remaining after the eight fixed trailing bytes (`remaining = 4`). -/
def pRem4 : List Nat :=
  [1, 1, 1, 1, 1, 1, 1, 1, 1, 1, 0, 2, 3, 4, 5, 6, 7, 8, 9, 11, 12, 13, 14]

/-- As `pRem4` with one extra trailing byte (`remaining = 5`). -/
def pRem5 : List Nat := pRem4 ++ [99]

/-- As `pRem4` with two extra trailing bytes (`remaining = 6`). -/
def pRem6 : List Nat := pRem4 ++ [99, 100]

/-- A parameter payload with no zero byte anywhere, so the terminator
scan of `_parse_FN_at_response` never finds an exit. -/
def pNoTerm : List Nat := List.replicate 19 1

end DigiMesh

namespace DigiMesh

/-- Claim C1, counterexample. The spec-side trigger (AT-style response,
command "ND" case-insensitive, zero status) does not coincide with the
code: a direct `at_response` with command `b'FN'` and zero status fails
the spec trigger yet is post-processed into a record, while a
`remote_at_response` with command `b'ND'` and zero status meets the spec
trigger yet the code is a no-op returning `None` (the source compares the
command against `b'fn'` and its id tuple names `'at_remote_response'`,
not the registered `'remote_at_response'`). -/
theorem C1_counterexample :
    specTriggerCond ⟨"at_response", [0x46, 0x4E], [0], pRem0⟩ = false ∧
    parse_FN ⟨"at_response", [0x46, 0x4E], [0], pRem0⟩ ≠ FNOutcome.ret none ∧
    specTriggerCond ⟨"remote_at_response", [0x4E, 0x44], [0], pRem0⟩ = true ∧
    parse_FN ⟨"remote_at_response", [0x4E, 0x44], [0], pRem0⟩ = FNOutcome.ret none := by
  decide

/-- Claim C1 as amended: `_parse_FN_at_response` is a no-op returning
`None` exactly when the source guard `trigger` fails, i.e. when the
record's id is not one of `'at_response'` / `'at_remote_response'`, or
its command does not equal `b'fn'` case-insensitively, or its status is
not the zero byte; whenever the guard holds the call never returns
`None` (it returns a structured record, raises, or loops forever). -/
theorem C1_amended (r : PacketInfo) :
    parse_FN r = FNOutcome.ret none ↔ trigger r = false := by
  unfold parse_FN
  by_cases h : trigger r
  · simp only [h, if_true]
    cases hft : findTermIdx r.parameter with
    | none => simp [h]
    | some t =>
      dsimp only
      split_ifs <;> simp [h]
  · simp only [Bool.not_eq_true] at h
    simp [h]

/-- Claim C4 (remote AT responses are post-processed like direct ones)
fails on the code, at the failing input: the `remote_at_response`
schema (type byte 0x97) carries no parsing hook — the `'parsing'` pair
of lines 138-139 lands as a stray top-level key of `api_responses`
because the 0x97 dict literal is closed at line 137 — whereas the 0x88
entry does; and even when called directly on a successful remote AT
response with command `b'FN'` (or `b'ND'`), `_parse_FN_at_response`
returns `None` because its guard tests membership of
`'at_remote_response'`, not the registered `'remote_at_response'`. -/
theorem C4_remote_hook_missing :
    (getResp [0x97]).map ResponseEntry.parsing = some [] ∧
    (getResp [0x88]).map ResponseEntry.parsing = some ["parameter"] ∧
    api_responses_stray_parsing = ["parameter"] ∧
    parse_FN ⟨"remote_at_response", [0x46, 0x4E], [0], pRem4⟩ = FNOutcome.ret none ∧
    parse_FN ⟨"remote_at_response", [0x4E, 0x44], [0], pRem4⟩ = FNOutcome.ret none := by
  decide

/-- The eight base sub-fields sliced by `_parse_FN_at_response` around
the terminator index `t`, before any optional trailing layout. -/
def baseRecord (P : List Nat) (t : Nat) : NDRecord :=
  { source_addr := listSlice P 0 2
    source_addr_long := listSlice P 2 10
    node_identifier := listSlice P 10 t
    parent_address := listSlice P (t + 1) (t + 3)
    device_type := listSlice P (t + 3) (t + 4)
    status := listSlice P (t + 4) (t + 5)
    profile_id := listSlice P (t + 5) (t + 7)
    manufacturer := listSlice P (t + 7) (t + 9)
    device_type_id := none
    rssi := none }

/-- Triggered call, terminator found, `remaining = 4`: the record gains a
`device_type_id` and the final length check passes. -/
theorem parse_FN_eq_rem4 (r : PacketInfo) (t : Nat)
    (htr : trigger r = true) (hft : findTermIdx r.parameter = some t)
    (h4 : (r.parameter.length : Int) - t - 9 = 4) :
    parse_FN r = FNOutcome.ret (some { baseRecord r.parameter t with
      device_type_id := some (listSlice r.parameter (t + 9) (t + 13)) }) := by
  unfold parse_FN
  simp only [htr, if_true, hft]
  rw [if_pos h4, if_neg (by omega)]
  rfl

/-- Triggered call, terminator found, `remaining = 5`: the record gains a
`device_type_id` and an `rssi` and the final length check passes. -/
theorem parse_FN_eq_rem5 (r : PacketInfo) (t : Nat)
    (htr : trigger r = true) (hft : findTermIdx r.parameter = some t)
    (h5 : (r.parameter.length : Int) - t - 9 = 5) :
    parse_FN r = FNOutcome.ret (some { baseRecord r.parameter t with
      device_type_id := some (listSlice r.parameter (t + 9) (t + 13))
      rssi := some (listSlice r.parameter (t + 13) (t + 14)) }) := by
  unfold parse_FN
  simp only [htr, if_true, hft]
  rw [if_neg (by omega), if_pos h5, if_neg (by omega)]
  rfl

/-- Triggered call, terminator found, `remaining = 0`: neither optional
layout matches, yet the final check `t + 9 != len(P)` passes, so the base
record is returned without error. -/
theorem parse_FN_eq_rem0 (r : PacketInfo) (t : Nat)
    (htr : trigger r = true) (hft : findTermIdx r.parameter = some t)
    (h0 : (r.parameter.length : Int) - t - 9 = 0) :
    parse_FN r = FNOutcome.ret (some (baseRecord r.parameter t)) := by
  unfold parse_FN
  simp only [htr, if_true, hft]
  rw [if_neg (by omega), if_neg (by omega), if_neg (by omega)]
  rfl

/-- Triggered call, terminator found, `remaining` none of 0, 4, 5: the
final length check fails and `ValueError` is raised with
`expected = len(P)` and `read = t + 9`. -/
theorem parse_FN_eq_error (r : PacketInfo) (t : Nat)
    (htr : trigger r = true) (hft : findTermIdx r.parameter = some t)
    (h0 : (r.parameter.length : Int) - t - 9 ≠ 0)
    (h4 : (r.parameter.length : Int) - t - 9 ≠ 4)
    (h5 : (r.parameter.length : Int) - t - 9 ≠ 5) :
    parse_FN r = FNOutcome.error r.parameter.length (t + 9) := by
  unfold parse_FN
  simp only [htr, if_true, hft]
  rw [if_neg h4, if_neg h5, if_pos (by omega)]

/-- Claim C2: with the terminator at index `t` (necessarily `≥ 10`) and
`remaining = len(P) - (t+9)`, a remaining of 4 yields a record with a
4-byte `device_type_id` and no `rssi`; a remaining of 5 yields a 4-byte
`device_type_id` and a 1-byte `rssi` equal to the final byte of `P`. -/
theorem C2_trailing_layouts (r : PacketInfo) (t : Nat)
    (htr : trigger r = true) (hft : findTermIdx r.parameter = some t) :
    ((r.parameter.length : Int) - t - 9 = 4 →
      ∃ res : NDRecord, parse_FN r = FNOutcome.ret (some res) ∧
        res.device_type_id = some (listSlice r.parameter (t + 9) (t + 13)) ∧
        (listSlice r.parameter (t + 9) (t + 13)).length = 4 ∧
        res.rssi = none) ∧
    ((r.parameter.length : Int) - t - 9 = 5 →
      ∃ res : NDRecord, ∃ b : Nat, parse_FN r = FNOutcome.ret (some res) ∧
        res.device_type_id = some (listSlice r.parameter (t + 9) (t + 13)) ∧
        (listSlice r.parameter (t + 9) (t + 13)).length = 4 ∧
        res.rssi = some [b] ∧ r.parameter.getLast? = some b) := by
  constructor
  · intro h4
    refine ⟨_, parse_FN_eq_rem4 r t htr hft h4, rfl, ?_, rfl⟩
    simp only [listSlice, List.length_drop, List.length_take]
    omega
  · intro h5
    have hlen : r.parameter.length = t + 14 := by omega
    have h1 : t + 13 < r.parameter.length := by omega
    have hslice : listSlice r.parameter (t + 13) (t + 14) =
        [r.parameter.get ⟨t + 13, h1⟩] := by
      rw [listSlice, List.take_of_length_le (by omega),
        List.drop_eq_getElem_cons h1, List.drop_eq_nil_of_le (by omega)]
      simp
    refine ⟨_, r.parameter.get ⟨t + 13, h1⟩, parse_FN_eq_rem5 r t htr hft h5,
      rfl, ?_, ?_, ?_⟩
    · simp only [listSlice, List.length_drop, List.length_take]
      omega
    · show some (listSlice r.parameter (t + 13) (t + 14)) = _
      rw [hslice]
    · have hidx : r.parameter.length - 1 = t + 13 := by omega
      rw [List.getLast?_eq_getElem?, hidx, List.getElem?_eq_getElem h1]
      simp [List.get_eq_getElem]

/-- Claim C2, witnessed at a concrete `remaining = 4` input. -/
theorem C2_witness :
    ∃ res : NDRecord,
      parse_FN ⟨"at_response", [0x66, 0x6E], [0], pRem4⟩ = FNOutcome.ret (some res) ∧
      res.device_type_id = some (listSlice pRem4 19 23) ∧
      (listSlice pRem4 19 23).length = 4 ∧
      res.rssi = none :=
  (C2_trailing_layouts ⟨"at_response", [0x66, 0x6E], [0], pRem4⟩ 10
    (by decide) (by decide)).1 (by decide)

/-- The record `_parse_FN_at_response` builds from the `remaining = 0`
payload `pRem0`. -/
def recRem0 : NDRecord :=
  ⟨[1, 1], [1, 1, 1, 1, 1, 1, 1, 1], [], [1, 1], [1], [1], [1, 1], [1, 1], none, none⟩

/-- Claim C3, counterexample: at `remaining = 0` — neither 4 nor 5 — the
post-processor does NOT raise: for the triggering record with parameter
`pRem0` (terminator at index 10, `len(P) = 19 = t + 9`) it returns the
base record. -/
theorem C3_counterexample :
    trigger ⟨"at_response", [0x66, 0x6E], [0], pRem0⟩ = true ∧
    findTermIdx pRem0 = some 10 ∧
    (pRem0.length : Int) - 10 - 9 = 0 ∧
    parse_FN ⟨"at_response", [0x66, 0x6E], [0], pRem0⟩ =
      FNOutcome.ret (some recRem0) := by
  decide

/-- Claim C3 as amended: with the terminator at index `t`, the
post-processor raises the length-mismatch `ValueError` (reporting
`expected = len(P)` and `read = t + 9`) exactly for
`remaining ∉ {0, 4, 5}`; at `remaining = 0` it instead returns the base
record with no optional trailing fields. -/
theorem C3_amended (r : PacketInfo) (t : Nat)
    (htr : trigger r = true) (hft : findTermIdx r.parameter = some t)
    (h0 : (r.parameter.length : Int) - t - 9 ≠ 0)
    (h4 : (r.parameter.length : Int) - t - 9 ≠ 4)
    (h5 : (r.parameter.length : Int) - t - 9 ≠ 5) :
    parse_FN r = FNOutcome.error r.parameter.length (t + 9) :=
  parse_FN_eq_error r t htr hft h0 h4 h5

/-- Claim C3, witnessed at a concrete `remaining = 6` input. -/
theorem C3_witness :
    parse_FN ⟨"at_response", [0x66, 0x6E], [0], pRem6⟩ = FNOutcome.error 25 19 :=
  C3_amended ⟨"at_response", [0x66, 0x6E], [0], pRem6⟩ 10
    (by decide) (by decide) (by decide) (by decide) (by decide)

/-- Claim C5: whenever `_parse_FN_at_response` returns a record around a
terminator at index `t`, the sub-fields are exactly the slices
`P[0:2]`, `P[2:10]`, `P[10:t]`, `P[t+1:t+3]`, `P[t+3:t+4]`,
`P[t+4:t+5]`, `P[t+5:t+7]`, `P[t+7:t+9]`. -/
theorem C5_base_slices (r : PacketInfo) (t : Nat) (res : NDRecord)
    (htr : trigger r = true) (hft : findTermIdx r.parameter = some t)
    (hret : parse_FN r = FNOutcome.ret (some res)) :
    res.source_addr = listSlice r.parameter 0 2 ∧
    res.source_addr_long = listSlice r.parameter 2 10 ∧
    res.node_identifier = listSlice r.parameter 10 t ∧
    res.parent_address = listSlice r.parameter (t + 1) (t + 3) ∧
    res.device_type = listSlice r.parameter (t + 3) (t + 4) ∧
    res.status = listSlice r.parameter (t + 4) (t + 5) ∧
    res.profile_id = listSlice r.parameter (t + 5) (t + 7) ∧
    res.manufacturer = listSlice r.parameter (t + 7) (t + 9) := by
  by_cases h4 : (r.parameter.length : Int) - t - 9 = 4
  · rw [parse_FN_eq_rem4 r t htr hft h4] at hret
    simp only [FNOutcome.ret.injEq, Option.some.injEq] at hret
    subst hret
    exact ⟨rfl, rfl, rfl, rfl, rfl, rfl, rfl, rfl⟩
  · by_cases h5 : (r.parameter.length : Int) - t - 9 = 5
    · rw [parse_FN_eq_rem5 r t htr hft h5] at hret
      simp only [FNOutcome.ret.injEq, Option.some.injEq] at hret
      subst hret
      exact ⟨rfl, rfl, rfl, rfl, rfl, rfl, rfl, rfl⟩
    · by_cases h0 : (r.parameter.length : Int) - t - 9 = 0
      · rw [parse_FN_eq_rem0 r t htr hft h0] at hret
        simp only [FNOutcome.ret.injEq, Option.some.injEq] at hret
        subst hret
        exact ⟨rfl, rfl, rfl, rfl, rfl, rfl, rfl, rfl⟩
      · rw [parse_FN_eq_error r t htr hft h0 h4 h5] at hret
        simp at hret

/-- Claim C5, witnessed at the concrete `remaining = 0` input `pRem0`. -/
theorem C5_witness :
    recRem0.source_addr = listSlice pRem0 0 2 ∧
    recRem0.source_addr_long = listSlice pRem0 2 10 ∧
    recRem0.node_identifier = listSlice pRem0 10 10 ∧
    recRem0.parent_address = listSlice pRem0 11 13 ∧
    recRem0.device_type = listSlice pRem0 13 14 ∧
    recRem0.status = listSlice pRem0 14 15 ∧
    recRem0.profile_id = listSlice pRem0 15 17 ∧
    recRem0.manufacturer = listSlice pRem0 17 19 :=
  C5_base_slices ⟨"at_response", [0x66, 0x6E], [0], pRem0⟩ 10 recRem0
    (by decide) (by decide) (by decide)

/-- Python `P[i:i+1]` is the singleton `[P[i]]` inside the list and `[]`
past its end. -/
theorem listSlice_one (P : List Nat) : ∀ i : Nat, listSlice P i (i + 1) = (P[i]?).toList := by
  induction P with
  | nil => intro i; simp [listSlice]
  | cons a l ih =>
    intro i
    cases i with
    | zero => simp [listSlice]
    | succ j =>
      simpa [listSlice, List.take_succ_cons, List.drop_succ_cons,
        List.getElem?_cons_succ] using ih j

/-- Claim C10: on a triggering record whose parameter has no zero byte at
any index ≥ 10, `_parse_FN_at_response` can only diverge: the terminator
value the scan would need does not exist (`parse_FN` lands in the
`diverges` outcome), and the literal source loop exits under no amount of
fuel from any start index ≥ 10 — the out-of-range slice `P[i:i+1] = b''`
never equals `b'\x00'`, so the index keeps growing. -/
theorem C10_scan_nonterminating (r : PacketInfo)
    (htr : trigger r = true)
    (hz : ∀ b ∈ r.parameter.drop 10, b ≠ 0) :
    parse_FN r = FNOutcome.diverges ∧
    ∀ fuel i, 10 ≤ i → scanFuel r.parameter fuel i = none := by
  have hft : findTermIdx r.parameter = none := by
    have h0 : (r.parameter.drop 10).findIdx? (fun b => b == 0) = none :=
      List.findIdx?_eq_none_iff.mpr (by
        intro x hx
        simpa using hz x hx)
    simp [findTermIdx, h0]
  refine ⟨by unfold parse_FN; simp [htr, hft], ?_⟩
  intro fuel
  induction fuel with
  | zero => intro i _; rfl
  | succ n ih =>
    intro i hi
    have hslice : ¬(listSlice r.parameter i (i + 1) == [0]) = true := by
      rw [listSlice_one]
      cases hgi : r.parameter[i]? with
      | none => simp
      | some b =>
        have hb : b ∈ r.parameter.drop 10 := by
          have hdg : (r.parameter.drop 10)[i - 10]? = r.parameter[i]? := by
            rw [List.getElem?_drop]
            congr 1
            omega
          exact List.getElem?_mem (hdg.trans hgi)
        have : b ≠ 0 := hz b hb
        simp [this]
    unfold scanFuel
    rw [if_neg hslice]
    exact ih (i + 1) (by omega)

/-- Claim C10, witnessed at a concrete triggering record whose 19-byte
parameter is all ones. -/
theorem C10_witness :
    parse_FN ⟨"at_response", [0x66, 0x6E], [0], pNoTerm⟩ = FNOutcome.diverges :=
  (C10_scan_nonterminating ⟨"at_response", [0x66, 0x6E], [0], pNoTerm⟩
    (by decide) (by decide)).1

/-- Claim C6: encoding `tx` with `dest_addr` eight zero bytes and
`data = "hi"`, all other fields left to their schema defaults, yields
exactly `0x10 0x00`, eight `0x00` bytes, `0xFF 0xFE 0x00 0x00`, then
the bytes of `"hi"`. -/
theorem C6_tx_encode :
    encode (getCmd "tx") [("dest_addr", List.replicate 8 0), ("data", [0x68, 0x69])] =
      some [0x10, 0x00, 0, 0, 0, 0, 0, 0, 0, 0, 0xFF, 0xFE, 0x00, 0x00, 0x68, 0x69] := by
  decide

/-- Decoder step: a fixed-count field consumes exactly its declared
byte count from the front. -/
theorem decodeFields_fixed (nm : String) (n : Nat) (d : Option (List Nat))
    (rest : List FieldSpec) (v bs : List Nat) (hv : v.length = n) :
    decodeFields (⟨nm, .fixed n, d⟩ :: rest) (v ++ bs) =
      (decodeFields rest bs).map (fun l => (nm, v) :: l) := by
  simp only [decodeFields]
  rw [if_pos (by rw [List.length_append, hv]; omega),
    List.take_left' hv, List.drop_left' hv]

/-- Decoder step: a null-terminated field whose terminator sits at the
very front yields the empty value; the terminator is consumed and
belongs to no field. -/
theorem decodeFields_nullTerm_here (nm : String) (d : Option (List Nat))
    (rest : List FieldSpec) (bs : List Nat) :
    decodeFields (⟨nm, .nullTerm, d⟩ :: rest) (0 :: bs) =
      (decodeFields rest bs).map (fun l => (nm, []) :: l) := by
  simp [decodeFields]

/-- Decoder step: a final remainder field takes every byte left. -/
theorem decodeFields_rem (nm : String) (d : Option (List Nat)) (bs : List Nat) :
    decodeFields [⟨nm, .remainder, d⟩] bs = some [(nm, bs)] := by
  simp [decodeFields]

/-- Claim C8: a `node_id` response (type byte 0x95) whose null-terminated
`node_id` field has its terminator immediately at the field's start
decodes successfully with an empty `node_id` value; the terminator byte
is consumed and appears in no field of the result. `pre` is the 21 bytes
of the five fixed fields before `node_id`, `parent` the 2 bytes after
it, and `unknown` the trailing remainder. -/
theorem C8_empty_node_id (pre parent unknown : List Nat)
    (h1 : pre.length = 21) (h2 : parent.length = 2) :
    decode (0x95 :: (pre ++ 0 :: (parent ++ unknown))) =
      some ("node_id",
        [("source_addr_long", pre.take 8),
         ("network_addr", (pre.drop 8).take 2),
         ("options", (pre.drop 10).take 1),
         ("source_addr", (pre.drop 11).take 2),
         ("network_addr_long", pre.drop 13),
         ("node_id", []),
         ("parent", parent),
         ("unknown", unknown)]) := by
  have hstep : decode (0x95 :: (pre ++ 0 :: (parent ++ unknown))) =
      (decodeFields
        [⟨"source_addr_long", .fixed 8, none⟩,
         ⟨"network_addr", .fixed 2, none⟩,
         ⟨"options", .fixed 1, none⟩,
         ⟨"source_addr", .fixed 2, none⟩,
         ⟨"network_addr_long", .fixed 8, none⟩,
         ⟨"node_id", .nullTerm, none⟩,
         ⟨"parent", .fixed 2, none⟩,
         ⟨"unknown", .remainder, none⟩]
        (pre ++ 0 :: (parent ++ unknown))).map (fun l => ("node_id", l)) := rfl
  rw [hstep]
  conv_lhs => rw [← List.take_append_drop 8 pre, List.append_assoc]
  rw [decodeFields_fixed _ _ _ _ _ _ (by rw [List.length_take]; omega)]
  conv_lhs => rw [← List.take_append_drop 2 (pre.drop 8), List.append_assoc]
  rw [decodeFields_fixed _ _ _ _ _ _ (by rw [List.length_take]; simp; omega)]
  rw [List.drop_drop]
  norm_num
  conv_lhs => rw [← List.take_append_drop 1 (pre.drop 10), List.append_assoc]
  rw [decodeFields_fixed _ _ _ _ _ _ (by rw [List.length_take]; simp; omega)]
  rw [List.drop_drop]
  norm_num
  conv_lhs => rw [← List.take_append_drop 2 (pre.drop 11), List.append_assoc]
  rw [decodeFields_fixed _ _ _ _ _ _ (by rw [List.length_take]; simp; omega)]
  rw [List.drop_drop]
  norm_num
  conv_lhs => rw [← List.take_append_drop 8 (pre.drop 13), List.append_assoc]
  rw [decodeFields_fixed _ _ _ _ _ _ (by rw [List.length_take]; simp; omega)]
  rw [List.drop_drop]
  norm_num
  rw [show pre.drop 21 = [] from List.drop_eq_nil_of_le (by omega), List.nil_append]
  rw [decodeFields_nullTerm_here]
  rw [decodeFields_fixed _ _ _ _ _ _ h2, decodeFields_rem]
  exact ⟨by simp, by omega⟩

/-- Claim C8, witnessed at a concrete frame: 21 bytes of 7s, the
terminator, parent `[5, 6]`, trailing `[9, 9, 9]`. -/
theorem C8_witness :
    decode (0x95 :: (List.replicate 21 7 ++ 0 :: ([5, 6] ++ [9, 9, 9]))) =
      some ("node_id",
        [("source_addr_long", (List.replicate 21 7).take 8),
         ("network_addr", ((List.replicate 21 7).drop 8).take 2),
         ("options", ((List.replicate 21 7).drop 10).take 1),
         ("source_addr", ((List.replicate 21 7).drop 11).take 2),
         ("network_addr_long", (List.replicate 21 7).drop 13),
         ("node_id", []),
         ("parent", [5, 6]),
         ("unknown", [9, 9, 9])]) :=
  C8_empty_node_id (List.replicate 21 7) [5, 6] [9, 9, 9] (by decide) (by decide)

/-- A supplied value fits a field's declared length: it must match a
declared fixed length; a variable-length field accepts any value. -/
def lenOkB (f : FieldSpec) (v : List Nat) : Bool :=
  match f.len with
  | .fixed n => v.length == n
  | _ => true

/-- The value list matches the schema positionally: same length, and each
value fits its field's declared length. -/
def valsMatch : List FieldSpec → List (List Nat) → Bool
  | [], [] => true
  | f :: fs, v :: vs => lenOkB f v && valsMatch fs vs
  | _, _ => false

/-- The override mapping supplies exactly the given value for every field
of the schema, positionally. -/
def suppliesAll : List FieldSpec → List (List Nat) → List (String × List Nat) → Bool
  | [], [], _ => true
  | f :: fs, v :: vs, ovs => (lookupOv ovs f.name == some v) && suppliesAll fs vs ovs
  | _, _, _ => false

/-- Command-schema shape: every field is fixed-width except that the
final field may be a remainder field; no null-terminated fields. -/
def cmdWF : List FieldSpec → Bool
  | [] => true
  | f :: rest =>
    match f.len with
    | .fixed _ => cmdWF rest
    | .remainder => rest.isEmpty
    | .nullTerm => false

/-- Encoding with an override mapping that supplies a length-correct
value for every field concatenates exactly the supplied values. -/
theorem encode_of_supplies : ∀ (schema : List FieldSpec) (vals : List (List Nat))
    (ovs : List (String × List Nat)),
    suppliesAll schema vals ovs = true → valsMatch schema vals = true →
    encode schema ovs = some vals.flatten := by
  intro schema
  induction schema with
  | nil =>
    intro vals ovs hs _
    cases vals with
    | nil => simp [encode]
    | cons v vs => simp [suppliesAll] at hs
  | cons f fs ih =>
    intro vals ovs hs hm
    cases vals with
    | nil => simp [suppliesAll] at hs
    | cons v vs =>
      simp only [suppliesAll, Bool.and_eq_true, beq_iff_eq] at hs
      simp only [valsMatch, Bool.and_eq_true] at hm
      obtain ⟨hs1, hs2⟩ := hs
      obtain ⟨hm1, hm2⟩ := hm
      have hres : resolve f ovs = some v := by
        unfold resolve
        rw [hs1]
        cases hf : f.len with
        | fixed n =>
          have hv : v.length = n := by simpa [lenOkB, hf] using hm1
          simp [hv]
        | remainder => rfl
        | nullTerm => rfl
      have hrest := ih vs ovs hs2 hm2
      unfold encode
      rw [hres, hrest]
      simp

/-- Re-splitting the concatenation of length-correct values by a
command-shaped schema's declared lengths recovers exactly the values. -/
theorem splitFields_flatten : ∀ (schema : List FieldSpec) (vals : List (List Nat)),
    cmdWF schema = true → valsMatch schema vals = true →
    splitFields schema vals.flatten = some vals := by
  intro schema
  induction schema with
  | nil =>
    intro vals _ hm
    cases vals with
    | nil => simp [splitFields]
    | cons v vs => simp [valsMatch] at hm
  | cons f fs ih =>
    intro vals hwf hm
    cases vals with
    | nil => simp [valsMatch] at hm
    | cons v vs =>
      simp only [valsMatch, Bool.and_eq_true] at hm
      obtain ⟨hm1, hm2⟩ := hm
      cases hf : f.len with
      | fixed n =>
        have hv : v.length = n := by simpa [lenOkB, hf] using hm1
        have hwf' : cmdWF fs = true := by simpa [cmdWF, hf] using hwf
        have hrec := ih vs hwf' hm2
        simp only [List.flatten_cons, splitFields, hf]
        rw [if_pos (by rw [List.length_append, hv]; omega),
          List.take_left' hv, List.drop_left' hv, hrec]
        rfl
      | remainder =>
        have hfs : fs = [] := by simpa [cmdWF, hf, List.isEmpty_iff] using hwf
        subst hfs
        have hvs : vs = [] := by
          cases vs with
          | nil => rfl
          | cons a b => simp [valsMatch] at hm2
        subst hvs
        simp [splitFields, hf]
      | nullTerm => simp [cmdWF, hf] at hwf

/-- Claim C7: for every command schema in the registry and every override
mapping supplying a length-correct value for every field, encoding and
then re-splitting the output by the schema's declared field lengths, in
order, reproduces exactly the supplied values. -/
theorem C7_roundtrip (cmd : String) (schema : List FieldSpec)
    (vals : List (List Nat)) (ovs : List (String × List Nat))
    (hmem : (cmd, schema) ∈ api_commands)
    (hsup : suppliesAll schema vals ovs = true)
    (hm : valsMatch schema vals = true) :
    encode schema ovs = some vals.flatten ∧
    splitFields schema vals.flatten = some vals := by
  have hwf : cmdWF schema = true := by
    simp only [api_commands, List.mem_cons, List.not_mem_nil, or_false] at hmem
    rcases hmem with h | h | h | h <;>
      · have hs := congrArg Prod.snd h
        dsimp at hs
        subst hs
        decide
  exact ⟨encode_of_supplies schema vals ovs hsup hm,
    splitFields_flatten schema vals hwf hm⟩

/-- Claim C7, witnessed on the `at` schema with all four fields
overridden. -/
theorem C7_witness :
    encode (getCmd "at")
        [("id", [8]), ("frame_id", [1]), ("command", [2, 3]), ("parameter", [4, 5, 6])] =
      some [8, 1, 2, 3, 4, 5, 6] ∧
    splitFields (getCmd "at") [8, 1, 2, 3, 4, 5, 6] =
      some [[8], [1], [2, 3], [4, 5, 6]] :=
  C7_roundtrip "at" (getCmd "at") [[8], [1], [2, 3], [4, 5, 6]]
    [("id", [8]), ("frame_id", [1]), ("command", [2, 3]), ("parameter", [4, 5, 6])]
    (by decide) (by decide) (by decide)

/-- Claim C9: `_parse_FN_at_response` is pure. Run with the record state
threaded through every dictionary read (`parse_FN_st`), the record after
the call equals the input record, and the outcome is the value of the
pure function `parse_FN` of the input alone — so equal inputs give equal
results, and the static schema tables (top-level constants here) are
never touched. -/
theorem C9_parse_pure (r : PacketInfo) :
    (parse_FN_st r).2 = r ∧ (parse_FN_st r).1 = parse_FN r := by
  unfold parse_FN_st parse_FN trigger
  by_cases h : ((r.id == "at_response" || r.id == "at_remote_response") &&
      (r.command.map lowerByte == [0x66, 0x6E]) && (r.status == [0x00])) = true
  · simp only [h, if_true]
    cases hft : findTermIdx r.parameter with
    | none => exact ⟨rfl, rfl⟩
    | some t =>
      dsimp only
      split_ifs <;> exact ⟨rfl, rfl⟩
  · dsimp only
    rw [if_neg h, if_neg h]
    exact ⟨rfl, rfl⟩

end DigiMesh
